import Mathlib

/-!
Shallow embedding of the calculation/user CRUD backend
(`app/auth.py`, `app/users.py`, `app/calculations.py`).

Numeric operands and results are modelled as rationals (`ℚ`): every value
the specification's scenarios exercise (integers, exact sums, exact
quotients) is exactly representable, and the division-by-zero guard uses
exact equality with zero just as the source does.  Time is an abstract
`Nat` clock passed explicitly where the source reads the wall clock.
The external JWT library (`jose`) is modelled as an idealized
message-authentication scheme: a token either is structurally malformed or
carries a payload together with a signature, and verification compares the
signature against the MAC of the payload under the process-wide secret key.
The external password-hashing library (`passlib`/bcrypt) is modelled as a
deterministic injective digest with a recognisable prefix; salting is
irrelevant to the claims proved here.
-/

namespace App

/-- Decidable equality for `Except`, so that concrete handler results can
be evaluated inside proofs. -/
instance {ε α : Type} [DecidableEq ε] [DecidableEq α] :
    DecidableEq (Except ε α) := fun x y =>
  match x, y with
  | .ok a, .ok b =>
    if h : a = b then .isTrue (h ▸ rfl)
    else .isFalse (fun he => h (Except.ok.inj he))
  | .error a, .error b =>
    if h : a = b then .isTrue (h ▸ rfl)
    else .isFalse (fun he => h (Except.error.inj he))
  | .ok _, .error _ => .isFalse (fun he => Except.noConfusion he)
  | .error _, .ok _ => .isFalse (fun he => Except.noConfusion he)

/-- HTTP-level error: status code plus detail string, as raised by
`HTTPException(status_code=..., detail=...)` in the source. -/
structure HError where
  status : Nat
  detail : String
deriving DecidableEq, Repr

/-- Typed failures of the calculation engine (`app/operations.py`):
`DivisionByZeroError` and `InvalidOperationError`. -/
inductive CalcError where
  | divisionByZero : CalcError
  | invalidOperation : String → CalcError
deriving DecidableEq, Repr

/-- Modelled from the spec: the pure calculation engine `calculate(a, b, op)`
of `app/operations.py`, whose source file is not included in the snapshot
(only its callers and tests are).  Spec §4.4: add → a+b; subtract → a-b;
multiply → a*b; divide → a/b but fails with `DivisionByZero` when b == 0
(exact equality); any op outside the fixed enumeration fails with
`InvalidOperation`. -/
def calculate (a b : ℚ) (op : String) : Except CalcError ℚ :=
  if op = "add" then .ok (a + b)
  else if op = "subtract" then .ok (a - b)
  else if op = "multiply" then .ok (a * b)
  else if op = "divide" then
    if b = 0 then .error .divisionByZero else .ok (a / b)
  else .error (.invalidOperation op)

/-- Detail string carried by the HTTP 400 raised from an
`InvalidOperationError` (the source uses `detail=str(e)`; the exact text
lives in the missing `app/operations.py`, so it is abstracted here). -/
def invalidOpDetail (op : String) : String := "Invalid operation " ++ op

/-! ## Token service (`app/auth.py`) -/

/-- Default of `SECRET_KEY` in `app/auth.py`. -/
def SECRET_KEY : String := "your-secret-key-change-this-in-production"

/-- Default of `ACCESS_TOKEN_EXPIRE_MINUTES` in `app/auth.py`. -/
def ACCESS_TOKEN_EXPIRE_MINUTES : Nat := 30

/-- A decoded JWT payload: the caller-supplied claims (an association list
of string claims, e.g. `("sub", username)`) plus the absolute expiry
timestamp written by `create_access_token`. -/
structure Payload where
  data : List (String × String)
  exp : Nat
deriving DecidableEq, Repr

/-- Idealized MAC signature: verification is equality with the MAC of the
payload under the key, i.e. the scheme is collision-free by construction. -/
abbrev Signature := String × List (String × String) × Nat

/-- The MAC of a payload under a key (idealized HS256). -/
def macSign (key : String) (p : Payload) : Signature := (key, p.data, p.exp)

/-- A wire-level token: either structurally malformed, or a payload with a
signature that may or may not verify. -/
inductive JWTToken where
  | malformed : String → JWTToken
  | signed : Payload → Signature → JWTToken
deriving DecidableEq, Repr

/-- `jwt.encode(payload, key, algorithm)`: sign the payload. -/
def jwtEncode (p : Payload) (key : String) : JWTToken :=
  .signed p (macSign key p)

/-- `jwt.decode(token, key, algorithms)` wrapped in the source's
`try/except JWTError` (so it returns `none` rather than throwing): rejects
malformed tokens, bad signatures, and tokens whose expiry is in the past. -/
def jwtDecode (t : JWTToken) (key : String) (now : Nat) : Option Payload :=
  match t with
  | .malformed _ => none
  | .signed p s => if s = macSign key p ∧ now ≤ p.exp then some p else none

/-- `create_access_token(data, expires_delta)` from `app/auth.py`: copies
the claims, sets `exp` to now + delta when the delta is truthy, and signs
with the process-wide secret key.  The source guard is `if expires_delta:`
— Python truthiness — under which both `None` AND a zero `timedelta(0)`
are falsy and fall back to the default ttl. -/
def create_access_token (data : List (String × String))
    (expires_delta : Option Nat) (now : Nat) : JWTToken :=
  let expire := match expires_delta with
    | some d => if d ≠ 0 then now + d else now + ACCESS_TOKEN_EXPIRE_MINUTES
    | none => now + ACCESS_TOKEN_EXPIRE_MINUTES
  jwtEncode ⟨data, expire⟩ SECRET_KEY

/-- `decode_access_token(token)` from `app/auth.py`: decode and validate
against the secret key; `none` on any `JWTError`. -/
def decode_access_token (t : JWTToken) (now : Nat) : Option Payload :=
  jwtDecode t SECRET_KEY now

/-! ## Credential hasher (`app/auth.py`, wrapping passlib/bcrypt) -/

/-- `hash_password(password)`: modelled as a deterministic digest with the
bcrypt prefix (the claims proved here do not depend on salting). -/
def hash_password (password : String) : String := "$2b$12$" ++ password

/-- `verify_password(plain, hashed)`: recompute and compare. -/
def verify_password (plain hashed : String) : Bool :=
  hash_password plain == hashed

/-! ## Data model (`app/models.py`, reconstructed from its uses in src) -/

/-- A persisted user row. -/
structure User where
  id : Nat
  username : String
  email : String
  password_hash : String
  is_active : Bool
deriving DecidableEq, Repr

/-- A persisted calculation row. -/
structure Calculation where
  id : Nat
  user_id : Nat
  a : ℚ
  b : ℚ
  type : String
  result : ℚ
  created_at : Nat
deriving DecidableEq, Repr

/-- The record store: user and calculation tables plus the id sequences. -/
structure DB where
  users : List User
  calculations : List Calculation
  next_user_id : Nat
  next_calc_id : Nat
deriving DecidableEq, Repr

/-! ## Request schemas (`app/schemas.py`, reconstructed from uses in src) -/

/-- `CalculationCreate`: both operands and the operation tag required. -/
structure CalculationCreate where
  a : ℚ
  b : ℚ
  type : String
deriving DecidableEq, Repr

/-- `CalculationUpdate`: every field optional. -/
structure CalculationUpdate where
  a : Option ℚ := none
  b : Option ℚ := none
  type : Option String := none
deriving DecidableEq, Repr

/-- `UserCreate` registration payload. -/
structure UserCreate where
  username : String
  email : String
  password : String
deriving DecidableEq, Repr

/-- `UserLogin` payload; `username` may hold a username or an email. -/
structure UserLogin where
  username : String
  password : String
deriving DecidableEq, Repr

/-- `UserUpdate`: every field optional. -/
structure UserUpdate where
  username : Option String := none
  email : Option String := none
  password : Option String := none
deriving DecidableEq, Repr

/-- The public user projection (`UserResponse`): no password hash. -/
structure UserResponse where
  id : Nat
  username : String
  email : String
  is_active : Bool
deriving DecidableEq, Repr

/-- Build the public projection of a user row. -/
def userResponse (u : User) : UserResponse :=
  ⟨u.id, u.username, u.email, u.is_active⟩

/-- `AuthResponse` returned by register and login. -/
structure AuthResponse where
  message : String
  user : UserResponse
  access_token : JWTToken
  token_type : String
deriving DecidableEq, Repr

/-! ## Identity resolver (`app/users.py`, `get_current_user_dependency`) -/

/-- The 401 raised by `get_current_user_dependency`. -/
def credentialsException : HError := ⟨401, "Could not validate credentials"⟩

/-- The 403 raised by the `HTTPBearer` security scheme when the
Authorization header is absent; this framework behaviour is asserted by the
repository's own `demo_user_endpoints.py` (it prints success exactly when a
token-less request to a protected route returns 403 Not authenticated). -/
def notAuthenticated : HError := ⟨403, "Not authenticated"⟩

/-- `get_current_user_dependency(credentials, db)` body, applied to a
present bearer token: decode, extract `sub`, look the username up; every
failure is the same 401. -/
def get_current_user_dependency (token : JWTToken) (db : DB) (now : Nat) :
    Except HError User :=
  match decode_access_token token now with
  | none => .error credentialsException
  | some payload =>
    match payload.data.lookup "sub" with
    | none => .error credentialsException
    | some username =>
      match db.users.find? (fun u => u.username == username) with
      | none => .error credentialsException
      | some u => .ok u

/-- The full identity gate of a protected route: the `HTTPBearer` scheme
rejects an absent header with 403 before the handler runs; a present token
goes through `get_current_user_dependency`. -/
def resolve_identity (cred : Option JWTToken) (db : DB) (now : Nat) :
    Except HError User :=
  match cred with
  | none => .error notAuthenticated
  | some t => get_current_user_dependency t db now

/-! ## Calculation endpoints (`app/calculations.py`)

Mutating handlers return `Except HError α × DB`: the second component is
the store after the request, so a commit shows up as an updated store and a
rollback as the unchanged input store. -/

/-- The 404 shared by get/update/delete of a calculation: the same value
whether the record is missing or owned by a different user. -/
def calcNotFound : HError := ⟨404, "Calculation not found"⟩

/-- The 400 raised on `DivisionByZeroError`. -/
def divByZeroErr : HError := ⟨400, "Division by zero is not allowed"⟩

/-- Map an engine failure to the HTTP 400 the handlers raise. -/
def calcErrorToH : CalcError → HError
  | .divisionByZero => divByZeroErr
  | .invalidOperation op => ⟨400, invalidOpDetail op⟩

/-- The ownership-scoped lookup shared by get/update/delete:
`db.query(Calculation).filter(id == cid, user_id == uid).first()`. -/
def findCalc (cid uid : Nat) (db : DB) : Option Calculation :=
  db.calculations.find? (fun c => c.id == cid && c.user_id == uid)

/-- `add_calculation` (POST /calculations): compute via the engine, then
insert and commit; on an engine failure raise 400 with nothing written. -/
def add_calculation (data : CalculationCreate) (current_user : User)
    (db : DB) (now : Nat) : Except HError Calculation × DB :=
  match calculate data.a data.b data.type with
  | .ok result =>
    let newCalc : Calculation :=
      ⟨db.next_calc_id, current_user.id, data.a, data.b, data.type, result, now⟩
    (.ok newCalc,
     { db with calculations := db.calculations ++ [newCalc],
               next_calc_id := db.next_calc_id + 1 })
  | .error e => (.error (calcErrorToH e), db)

/-- Insert a calculation into a list sorted by `created_at` descending. -/
def insertDesc (c : Calculation) : List Calculation → List Calculation
  | [] => [c]
  | x :: xs =>
    if c.created_at ≤ x.created_at then x :: insertDesc c xs
    else c :: x :: xs

/-- Sort by `created_at` descending (`order_by(created_at.desc())`). -/
def sortDesc : List Calculation → List Calculation
  | [] => []
  | x :: xs => insertDesc x (sortDesc xs)

/-- `browse_calculations` (GET /calculations): the caller's records,
newest first, with `offset skip` and `limit (min limit 1000)`. -/
def browse_calculations (skip limit : Nat) (current_user : User) (db : DB) :
    List Calculation :=
  let lim := min limit 1000
  ((sortDesc (db.calculations.filter
      (fun c => c.user_id == current_user.id))).drop skip).take lim

/-- `read_calculation` (GET /calculations/id): ownership-scoped lookup,
404 when nothing matches. -/
def read_calculation (cid : Nat) (current_user : User) (db : DB) :
    Except HError Calculation :=
  match findCalc cid current_user.id db with
  | none => .error calcNotFound
  | some c => .ok c

/-- The field application of `edit_calculation`: overwrite exactly the
fields the request supplies (source checks each `is not None`). -/
def applyUpdate (c : Calculation) (d : CalculationUpdate) : Calculation :=
  let c1 := match d.a with | some a => { c with a := a } | none => c
  let c2 := match d.b with | some b => { c1 with b := b } | none => c1
  match d.type with | some t => { c2 with type := t } | none => c2

/-- The `updated` flag of `edit_calculation`: some field was supplied. -/
def updatedFlag (d : CalculationUpdate) : Bool :=
  d.a.isSome || d.b.isSome || d.type.isSome

/-- Overwrite the `result` field (`calculation.result = result`). -/
def withResult (c : Calculation) (r : ℚ) : Calculation :=
  { c with result := r }

/-- Commit a mutated row: the store keeps the row under its primary key. -/
def replaceCalc (c : Calculation) (l : List Calculation) : List Calculation :=
  l.map (fun x => if x.id == c.id then c else x)

/-- `edit_calculation` (PUT /calculations/id): ownership-scoped fetch
(404 otherwise); apply provided fields; if none were provided return the
record untouched; otherwise recompute the result and commit, rolling back
to the input store on an engine failure (400). -/
def edit_calculation (cid : Nat) (d : CalculationUpdate)
    (current_user : User) (db : DB) : Except HError Calculation × DB :=
  match findCalc cid current_user.id db with
  | none => (.error calcNotFound, db)
  | some c =>
    if updatedFlag d then
      let c1 := applyUpdate c d
      match calculate c1.a c1.b c1.type with
      | .ok r =>
        let c2 := withResult c1 r
        (.ok c2, { db with calculations := replaceCalc c2 db.calculations })
      | .error e => (.error (calcErrorToH e), db)
    else (.ok c, db)

/-- `edit_calculation_patch` (PATCH /calculations/id): the source body is
a single delegation, `return await edit_calculation(...)`. -/
def edit_calculation_patch (cid : Nat) (d : CalculationUpdate)
    (current_user : User) (db : DB) : Except HError Calculation × DB :=
  edit_calculation cid d current_user db

/-- `delete_calculation` (DELETE /calculations/id): ownership-scoped fetch
(404 otherwise), then delete the row and commit. -/
def delete_calculation (cid : Nat) (current_user : User) (db : DB) :
    Except HError String × DB :=
  match findCalc cid current_user.id db with
  | none => (.error calcNotFound, db)
  | some c =>
    (.ok ("Calculation " ++ toString cid ++ " deleted successfully"),
     { db with calculations := db.calculations.filter (fun x => !(x.id == c.id)) })

/-! ## User endpoints (`app/users.py`) -/

/-- The 401 shared by the two login failure modes. -/
def invalidCredentials : HError := ⟨401, "Invalid username or password"⟩

/-- `register_user` (POST /users/register): reject 400 when the username,
then the email, is already taken (exact match); otherwise persist the user
with the hashed password, active by default, and issue a token whose `sub`
is the new username. -/
def register_user (d : UserCreate) (db : DB) (now : Nat) :
    Except HError AuthResponse × DB :=
  if (db.users.find? (fun u => u.username == d.username)).isSome then
    (.error ⟨400, "Username already registered"⟩, db)
  else if (db.users.find? (fun u => u.email == d.email)).isSome then
    (.error ⟨400, "Email already registered"⟩, db)
  else
    let newUser : User :=
      ⟨db.next_user_id, d.username, d.email, hash_password d.password, true⟩
    let token := create_access_token [("sub", newUser.username)]
      (some ACCESS_TOKEN_EXPIRE_MINUTES) now
    (.ok ⟨"Registration successful", userResponse newUser, token, "bearer"⟩,
     { db with users := db.users ++ [newUser],
               next_user_id := db.next_user_id + 1 })

/-- `login_user` (POST /users/login): resolve by username OR email; 401 on
no match or bad password (password checked first), 403 when the matched
user is inactive, token on success.  Login does not mutate the store. -/
def login_user (d : UserLogin) (db : DB) (now : Nat) :
    Except HError AuthResponse :=
  match db.users.find?
      (fun u => u.username == d.username || u.email == d.username) with
  | none => .error invalidCredentials
  | some u =>
    if !(verify_password d.password u.password_hash) then
      .error invalidCredentials
    else if !u.is_active then
      .error ⟨403, "User account is inactive"⟩
    else
      .ok ⟨"Login successful", userResponse u,
           create_access_token [("sub", u.username)]
             (some ACCESS_TOKEN_EXPIRE_MINUTES) now, "bearer"⟩

/-- `get_users` (GET /users): pagination only, no authentication. -/
def get_users (skip limit : Nat) (db : DB) : List User :=
  (db.users.drop skip).take limit

/-- `get_user` (GET /users/id): lookup by id, no authentication. -/
def get_user (uid : Nat) (db : DB) : Except HError User :=
  match db.users.find? (fun u => u.id == uid) with
  | none => .error ⟨404, "User not found"⟩
  | some u => .ok u

/-- Python truthiness of an optional string field (`if user_data.username:`
skips both `None` and the empty string). -/
def strProvided : Option String → Bool
  | none => false
  | some s => !s.isEmpty

/-- The username step of `update_user`: when a (truthy) username is
supplied, re-check uniqueness excluding self, then overwrite. -/
def applyUsername (uid : Nat) (d : UserUpdate) (db : DB) (u : User) :
    Except HError User :=
  match d.username with
  | some uname =>
    if !uname.isEmpty then
      if (db.users.find? (fun x => x.username == uname && !(x.id == uid))).isSome then
        .error ⟨400, "Username already taken"⟩
      else .ok { u with username := uname }
    else .ok u
  | none => .ok u

/-- The email step of `update_user`, symmetric to the username step. -/
def applyEmail (uid : Nat) (d : UserUpdate) (db : DB) (u : User) :
    Except HError User :=
  match d.email with
  | some em =>
    if !em.isEmpty then
      if (db.users.find? (fun x => x.email == em && !(x.id == uid))).isSome then
        .error ⟨400, "Email already taken"⟩
      else .ok { u with email := em }
    else .ok u
  | none => .ok u

/-- The password step of `update_user`: hash and overwrite when truthy. -/
def applyPassword (d : UserUpdate) (u : User) : User :=
  match d.password with
  | some pw => if !pw.isEmpty then { u with password_hash := hash_password pw } else u
  | none => u

/-- `update_user` (PUT /users/id): NO authentication dependency; fetch by
id (404 otherwise), apply username/email (each with a uniqueness re-check
excluding self, 400 on conflict) and password, then commit. -/
def update_user (uid : Nat) (d : UserUpdate) (db : DB) :
    Except HError User × DB :=
  match db.users.find? (fun u => u.id == uid) with
  | none => (.error ⟨404, "User not found"⟩, db)
  | some u0 =>
    match applyUsername uid d db u0 with
    | .error e => (.error e, db)
    | .ok u1 =>
      match applyEmail uid d db u1 with
      | .error e => (.error e, db)
      | .ok u2 =>
        let u3 := applyPassword d u2
        (.ok u3,
         { db with users := db.users.map (fun x => if x.id == uid then u3 else x) })

/-- `delete_user` (DELETE /users/id): NO authentication dependency; fetch
by id (404 otherwise), delete the row and commit. -/
def delete_user (uid : Nat) (db : DB) : Except HError String × DB :=
  match db.users.find? (fun u => u.id == uid) with
  | none => (.error ⟨404, "User not found"⟩, db)
  | some u =>
    (.ok ("User " ++ u.username ++ " deleted successfully"),
     { db with users := db.users.filter (fun x => !(x.id == uid)) })

/-! ## Protected-route wrappers

Every calculation route declares `Depends(get_current_user_dependency)`;
these wrappers make that gate explicit, taking the optional bearer token of
the request. -/

/-- POST /calculations behind the identity gate. -/
def calculations_create_endpoint (cred : Option JWTToken)
    (data : CalculationCreate) (db : DB) (now : Nat) :
    Except HError Calculation × DB :=
  match resolve_identity cred db now with
  | .error e => (.error e, db)
  | .ok u => add_calculation data u db now

/-- GET /calculations behind the identity gate. -/
def calculations_browse_endpoint (cred : Option JWTToken)
    (skip limit : Nat) (db : DB) (now : Nat) :
    Except HError (List Calculation) :=
  match resolve_identity cred db now with
  | .error e => .error e
  | .ok u => .ok (browse_calculations skip limit u db)

/-- GET /calculations/id behind the identity gate. -/
def calculations_read_endpoint (cred : Option JWTToken) (cid : Nat)
    (db : DB) (now : Nat) : Except HError Calculation :=
  match resolve_identity cred db now with
  | .error e => .error e
  | .ok u => read_calculation cid u db

/-- PUT /calculations/id behind the identity gate. -/
def calculations_put_endpoint (cred : Option JWTToken) (cid : Nat)
    (d : CalculationUpdate) (db : DB) (now : Nat) :
    Except HError Calculation × DB :=
  match resolve_identity cred db now with
  | .error e => (.error e, db)
  | .ok u => edit_calculation cid d u db

/-- PATCH /calculations/id behind the identity gate. -/
def calculations_patch_endpoint (cred : Option JWTToken) (cid : Nat)
    (d : CalculationUpdate) (db : DB) (now : Nat) :
    Except HError Calculation × DB :=
  match resolve_identity cred db now with
  | .error e => (.error e, db)
  | .ok u => edit_calculation_patch cid d u db

/-- DELETE /calculations/id behind the identity gate. -/
def calculations_delete_endpoint (cred : Option JWTToken) (cid : Nat)
    (db : DB) (now : Nat) : Except HError String × DB :=
  match resolve_identity cred db now with
  | .error e => (.error e, db)
  | .ok u => delete_calculation cid u db

/-! ## Concrete fixtures used by scenarios and witnesses -/

/-- A registered active user, as in the spec scenario. -/
def u0 : User := ⟨1, "alice", "alice@x.com", hash_password "password123", true⟩

/-- A second, distinct user. -/
def u1 : User := ⟨2, "bob", "bob@x.com", hash_password "hunter22pw", true⟩

/-- An inactive user holding valid credentials. -/
def u2 : User := ⟨3, "carol", "carol@x.com", hash_password "carolpw99", false⟩

/-- A store with one user and no calculations. -/
def db0 : DB := ⟨[u0], [], 2, 1⟩

/-- The record created by `create (a := 10) (b := 5) (type := "add")`. -/
def calcAdd : Calculation := ⟨1, 1, 10, 5, "add", 15, 1⟩

/-- The store after that create. -/
def db1 : DB := ⟨[u0], [calcAdd], 2, 2⟩

/-- The record after `PATCH (b := 8)` on `calcAdd`. -/
def calcPatched : Calculation := ⟨1, 1, 10, 8, "add", 18, 1⟩

/-- The store after that patch. -/
def db2 : DB := ⟨[u0], [calcPatched], 2, 2⟩

/-! ## Helper lemmas -/

theorem mem_insertDesc (x c : Calculation) (l : List Calculation) :
    x ∈ insertDesc c l ↔ x = c ∨ x ∈ l := by
  induction l with
  | nil => simp [insertDesc]
  | cons y ys ih =>
    simp only [insertDesc]
    split
    · simp only [List.mem_cons, ih]
      tauto
    · simp only [List.mem_cons]

theorem mem_sortDesc (x : Calculation) (l : List Calculation) :
    x ∈ sortDesc l ↔ x ∈ l := by
  induction l with
  | nil => simp [sortDesc]
  | cons y ys ih => simp [sortDesc, mem_insertDesc, ih]

theorem calculate_ten_five : calculate 10 5 "add" = .ok 15 := by
  have h : calculate 10 5 "add" = .ok (10 + 5) := rfl
  rw [h, show (10 : ℚ) + 5 = 15 by norm_num]

theorem calculate_ten_eight : calculate 10 8 "add" = .ok 18 := by
  have h : calculate 10 8 "add" = .ok (10 + 8) := rfl
  rw [h, show (10 : ℚ) + 8 = 18 by norm_num]

theorem scenario_create : add_calculation ⟨10, 5, "add"⟩ u0 db0 1 =
    (.ok calcAdd, db1) := by
  simp only [add_calculation, calculate_ten_five]
  rfl

theorem scenario_patch : edit_calculation_patch 1 ⟨none, some 8, none⟩ u0 db1 =
    (.ok calcPatched, db2) := by
  have hfind : findCalc 1 u0.id db1 = some calcAdd := rfl
  have hup : applyUpdate calcAdd ⟨none, some 8, none⟩ =
      ⟨1, 1, 10, 8, "add", 15, 1⟩ := rfl
  simp only [edit_calculation_patch, edit_calculation, hfind, updatedFlag,
    Option.isSome_some, Bool.true_or, Bool.or_true, if_true, hup,
    calculate_ten_eight]
  rfl

/-! ## Claim theorems -/

/-- C1.  A "divide" calculation fails exactly when b == 0: the engine
returns an error iff b = 0; creating a divide calculation with b = 0 is
rejected with the 400 division-by-zero error and the store is returned
unchanged (no record created); for any b ≠ 0 the create succeeds and the
persisted record's result is a/b. -/
theorem divide_create_zero_iff (a b : ℚ) (u : User) (st : DB) (now : Nat) :
    ((∃ e, calculate a b "divide" = .error e) ↔ b = 0)
    ∧ (b = 0 →
        add_calculation ⟨a, b, "divide"⟩ u st now = (.error divByZeroErr, st))
    ∧ (b ≠ 0 →
        add_calculation ⟨a, b, "divide"⟩ u st now =
          (.ok ⟨st.next_calc_id, u.id, a, b, "divide", a / b, now⟩,
           { st with
               calculations := st.calculations ++
                 [⟨st.next_calc_id, u.id, a, b, "divide", a / b, now⟩],
               next_calc_id := st.next_calc_id + 1 })) := by
  have hc : calculate a b "divide" =
      if b = 0 then .error .divisionByZero else .ok (a / b) := rfl
  refine ⟨⟨?_, ?_⟩, ?_, ?_⟩
  · rintro ⟨e, he⟩
    rw [hc] at he
    by_cases hb : b = 0
    · exact hb
    · simp [hb] at he
  · intro hb
    exact ⟨.divisionByZero, by rw [hc, if_pos hb]⟩
  · intro hb
    subst hb
    simp [add_calculation, hc, calcErrorToH]
  · intro hb
    simp [add_calculation, hc, hb]

/-- Witness for C1 at a = 10 with b = 0 (rejected, store unchanged) and
b = 4 (created with result 10/4). -/
theorem divide_create_zero_iff_witness :
    add_calculation ⟨(10 : ℚ), (0 : ℚ), "divide"⟩ u0 db0 5 =
      (.error divByZeroErr, db0)
    ∧ add_calculation ⟨(10 : ℚ), (4 : ℚ), "divide"⟩ u0 db0 5 =
      (.ok ⟨db0.next_calc_id, u0.id, 10, 4, "divide", 10 / 4, 5⟩,
       { db0 with
           calculations := db0.calculations ++
             [⟨db0.next_calc_id, u0.id, 10, 4, "divide", 10 / 4, 5⟩],
           next_calc_id := db0.next_calc_id + 1 }) :=
  ⟨(divide_create_zero_iff 10 0 u0 db0 5).2.1 rfl,
   (divide_create_zero_iff 10 4 u0 db0 5).2.2 (by norm_num)⟩

/-- C2.  Token round trip: for a truthy ttl, decoding a freshly issued
token returns the original claims at any time up to the expiry now + ttl,
and returns `none` after that expiry; a zero ttl is falsy in the source's
`if expires_delta:` guard, so it issues exactly the default-ttl token,
whose round trip (claims up to now + 30, `none` after) is also proved; a
signature that is not the MAC of the payload under the process key returns
`none`; a structurally malformed token returns `none`.
`decode_access_token` is a total function into `Option` (it wraps the
library call in `try/except JWTError`), so it never throws. -/
theorem token_roundtrip (data : List (String × String)) (ttl now t : Nat)
    (p : Payload) (s : Signature) (raw : String) (httl : ttl ≠ 0) :
    (t ≤ now + ttl →
      decode_access_token (create_access_token data (some ttl) now) t =
        some ⟨data, now + ttl⟩)
    ∧ (now + ttl < t →
      decode_access_token (create_access_token data (some ttl) now) t = none)
    ∧ create_access_token data (some 0) now = create_access_token data none now
    ∧ (t ≤ now + ACCESS_TOKEN_EXPIRE_MINUTES →
      decode_access_token (create_access_token data none now) t =
        some ⟨data, now + ACCESS_TOKEN_EXPIRE_MINUTES⟩)
    ∧ (now + ACCESS_TOKEN_EXPIRE_MINUTES < t →
      decode_access_token (create_access_token data none now) t = none)
    ∧ (s ≠ macSign SECRET_KEY p →
      decode_access_token (.signed p s) t = none)
    ∧ decode_access_token (.malformed raw) t = none := by
  have hcr : create_access_token data (some ttl) now =
      .signed ⟨data, now + ttl⟩ (macSign SECRET_KEY ⟨data, now + ttl⟩) := by
    simp [create_access_token, httl, jwtEncode]
  have heq : decode_access_token (create_access_token data (some ttl) now) t =
      if macSign SECRET_KEY ⟨data, now + ttl⟩ =
           macSign SECRET_KEY ⟨data, now + ttl⟩ ∧ t ≤ now + ttl
      then some ⟨data, now + ttl⟩ else none := by
    rw [hcr]
    rfl
  have heqd : decode_access_token (create_access_token data none now) t =
      if macSign SECRET_KEY ⟨data, now + ACCESS_TOKEN_EXPIRE_MINUTES⟩ =
           macSign SECRET_KEY ⟨data, now + ACCESS_TOKEN_EXPIRE_MINUTES⟩
           ∧ t ≤ now + ACCESS_TOKEN_EXPIRE_MINUTES
      then some ⟨data, now + ACCESS_TOKEN_EXPIRE_MINUTES⟩ else none := rfl
  refine ⟨?_, ?_, rfl, ?_, ?_, ?_, rfl⟩
  · intro h
    rw [heq, if_pos ⟨rfl, h⟩]
  · intro h
    rw [heq, if_neg]
    rintro ⟨-, h2⟩
    omega
  · intro h
    rw [heqd, if_pos ⟨rfl, h⟩]
  · intro h
    rw [heqd, if_neg]
    rintro ⟨-, h2⟩
    omega
  · intro hs
    have heq2 : decode_access_token (.signed p s) t =
        if s = macSign SECRET_KEY p ∧ t ≤ p.exp then some p else none := rfl
    rw [heq2, if_neg]
    rintro ⟨h1, -⟩
    exact hs h1

/-- Witness for C2: a token issued at time 0 with ttl 10 decodes to its
claims at time 7 and to `none` at time 11; a token issued with the falsy
ttl 0 equals the default-ttl token and still decodes to its claims at
time 7 (the default expiry is 30); a forged signature and a malformed
token decode to `none`. -/
theorem token_roundtrip_witness :
    decode_access_token
        (create_access_token [("sub", "alice")] (some 10) 0) 7 =
      some ⟨[("sub", "alice")], 0 + 10⟩
    ∧ decode_access_token
        (create_access_token [("sub", "alice")] (some 10) 0) 11 = none
    ∧ create_access_token [("sub", "alice")] (some 0) 0 =
        create_access_token [("sub", "alice")] none 0
    ∧ decode_access_token
        (create_access_token [("sub", "alice")] none 0) 7 =
      some ⟨[("sub", "alice")], 0 + ACCESS_TOKEN_EXPIRE_MINUTES⟩
    ∧ decode_access_token
        (create_access_token [("sub", "alice")] none 0) 31 = none
    ∧ decode_access_token (.signed ⟨[("sub", "alice")], 10⟩ ("x", [], 0)) 7 =
      none
    ∧ decode_access_token (.malformed "not-a-jwt") 7 = none := by
  have h := token_roundtrip [("sub", "alice")] 10 0 7
    ⟨[("sub", "alice")], 10⟩ ("x", [], 0) "not-a-jwt" (by decide)
  have h11 := token_roundtrip [("sub", "alice")] 10 0 11
    ⟨[], 0⟩ ("x", [], 0) "w" (by decide)
  have h31 := token_roundtrip [("sub", "alice")] 10 0 31
    ⟨[], 0⟩ ("x", [], 0) "w" (by decide)
  exact ⟨h.1 (by omega), h11.2.1 (by omega), h.2.2.1,
    h.2.2.2.1 (by decide), h31.2.2.2.2.1 (by decide),
    h.2.2.2.2.2.1 (by decide), h.2.2.2.2.2.2⟩

/-- C3.  Ownership isolation: for a calculation owned by user A and any
distinct user B (assuming ids are unique keys, as the store's primary key
guarantees), B's get, update and delete all fail with the calculation 404,
which is literally the same error a truly missing id produces, and B's
list never contains the record. -/
theorem ownership_isolation (A B : User) (c : Calculation) (st : DB)
    (skip limit mid : Nat) (d : CalculationUpdate)
    (hA : c.user_id = A.id) (hne : B.id ≠ A.id)
    (hmem : c ∈ st.calculations)
    (huniq : ∀ x ∈ st.calculations, x.id = c.id → x = c) :
    read_calculation c.id B st = .error calcNotFound
    ∧ edit_calculation c.id d B st = (.error calcNotFound, st)
    ∧ delete_calculation c.id B st = (.error calcNotFound, st)
    ∧ ((∀ x ∈ st.calculations, x.id ≠ mid) →
        read_calculation mid B st = .error calcNotFound)
    ∧ c ∉ browse_calculations skip limit B st := by
  have hnone : findCalc c.id B.id st = none := by
    unfold findCalc
    rw [List.find?_eq_none]
    intro x hx h
    simp only [Bool.and_eq_true, beq_iff_eq] at h
    obtain ⟨hid, huser⟩ := h
    have hxc := huniq x hx hid
    subst hxc
    rw [hA] at huser
    exact hne huser.symm
  refine ⟨?_, ?_, ?_, ?_, ?_⟩
  · simp [read_calculation, hnone]
  · simp [edit_calculation, hnone]
  · simp [delete_calculation, hnone]
  · intro habs
    have hnone2 : findCalc mid B.id st = none := by
      unfold findCalc
      rw [List.find?_eq_none]
      intro x hx h
      simp only [Bool.and_eq_true, beq_iff_eq] at h
      exact habs x hx h.1
    simp [read_calculation, hnone2]
  · intro hmem2
    simp only [browse_calculations] at hmem2
    have h1 := List.take_subset _ _ hmem2
    have h2 := List.drop_subset _ _ h1
    rw [mem_sortDesc, List.mem_filter] at h2
    have h3 := h2.2
    rw [beq_iff_eq, hA] at h3
    exact hne h3.symm

/-- Witness for C3: `calcAdd` belongs to user `u0` (id 1); user `u1`
(id 2) gets 404 from get, update and delete on it, gets the same 404 for
the absent id 99, and never sees it in a list. -/
theorem ownership_isolation_witness :
    read_calculation calcAdd.id u1 db1 = .error calcNotFound
    ∧ edit_calculation calcAdd.id ⟨some 3, none, none⟩ u1 db1 =
        (.error calcNotFound, db1)
    ∧ delete_calculation calcAdd.id u1 db1 = (.error calcNotFound, db1)
    ∧ read_calculation 99 u1 db1 = .error calcNotFound
    ∧ calcAdd ∉ browse_calculations 0 100 u1 db1 := by
  have h := ownership_isolation u0 u1 calcAdd db1 0 100 99
    ⟨some 3, none, none⟩ rfl (by decide) (by decide) (by decide)
  exact ⟨h.1, h.2.1, h.2.2.1, h.2.2.2.1 (by decide), h.2.2.2.2⟩

/-- C4 counterexample: a protected request with NO bearer token at all is
rejected by the security scheme with 403 "Not authenticated" (the
behaviour the repository's own demo script asserts), not with the 401 the
claim states for the absent-token case. -/
theorem absent_token_is_403_not_401 :
    resolve_identity none db0 0 = .error ⟨403, "Not authenticated"⟩
    ∧ ∀ d : String, resolve_identity none db0 0 ≠ .error ⟨401, d⟩ := by
  refine ⟨rfl, ?_⟩
  intro d h
  simp [resolve_identity, notAuthenticated] at h

/-- C4 amended.  With a bearer token PRESENT, identity resolution fails
with the 401 credentials error exactly when the token is malformed or
expired (decode returns none), has no subject claim, or its subject does
not resolve to an existing user; in EVERY other case — the subject
resolves to a stored user, with no condition on its active flag — the
resolver accepts and yields that user, so together the conjuncts decide
the resolver's behaviour on every present token.  An ABSENT token is
rejected earlier by the security scheme with 403.  In particular a
resolved user marked inactive is NOT rejected — the resolver yields it
and protected endpoints (here: list) succeed for it, the active flag
being enforced only at login. -/
theorem resolver_contract (t : JWTToken) (st : DB) (now : Nat)
    (p : Payload) (un : String) (u : User) :
    resolve_identity none st now = .error notAuthenticated
    ∧ (decode_access_token t now = none →
        get_current_user_dependency t st now = .error credentialsException)
    ∧ (decode_access_token t now = some p → p.data.lookup "sub" = none →
        get_current_user_dependency t st now = .error credentialsException)
    ∧ (decode_access_token t now = some p → p.data.lookup "sub" = some un →
        st.users.find? (fun x => x.username == un) = none →
        get_current_user_dependency t st now = .error credentialsException)
    ∧ (decode_access_token t now = some p → p.data.lookup "sub" = some un →
        st.users.find? (fun x => x.username == un) = some u →
        get_current_user_dependency t st now = .ok u
        ∧ resolve_identity (some t) st now = .ok u
        ∧ calculations_browse_endpoint (some t) 0 100 st now =
            .ok (browse_calculations 0 100 u st))
    ∧ (decode_access_token t now = some p → p.data.lookup "sub" = some un →
        st.users.find? (fun x => x.username == un) = some u →
        u.is_active = false →
        get_current_user_dependency t st now = .ok u) := by
  have hacc : decode_access_token t now = some p →
      p.data.lookup "sub" = some un →
      st.users.find? (fun x => x.username == un) = some u →
      get_current_user_dependency t st now = .ok u := by
    intro h1 h2 h3
    simp [get_current_user_dependency, h1, h2, h3]
  refine ⟨rfl, ?_, ?_, ?_, ?_, ?_⟩
  · intro h1
    simp [get_current_user_dependency, h1]
  · intro h1 h2
    simp [get_current_user_dependency, h1, h2]
  · intro h1 h2 h3
    simp [get_current_user_dependency, h1, h2, h3]
  · intro h1 h2 h3
    have hok := hacc h1 h2 h3
    exact ⟨hok, by simp [resolve_identity, hok],
           by simp [calculations_browse_endpoint, resolve_identity, hok]⟩
  · intro h1 h2 h3 _
    exact hacc h1 h2 h3

/-- Witness for C4 amended: in a store whose only user `u2` is inactive
(last conjunct), a malformed token gets 401; a valid unexpired token for
`u2` resolves to `u2` and the protected list endpoint succeeds; an absent
token gets 403. -/
theorem resolver_contract_witness :
    get_current_user_dependency (.malformed "xx") ⟨[u2], [], 4, 1⟩ 0 =
      .error credentialsException
    ∧ get_current_user_dependency
        (create_access_token [("sub", "carol")] (some 10) 0)
        ⟨[u2], [], 4, 1⟩ 0 = .ok u2
    ∧ calculations_browse_endpoint
        (some (create_access_token [("sub", "carol")] (some 10) 0))
        0 100 ⟨[u2], [], 4, 1⟩ 0 =
      .ok (browse_calculations 0 100 u2 ⟨[u2], [], 4, 1⟩)
    ∧ resolve_identity none ⟨[u2], [], 4, 1⟩ 0 = .error notAuthenticated
    ∧ u2.is_active = false := by
  have h1 := (resolver_contract (.malformed "xx") ⟨[u2], [], 4, 1⟩ 0
    ⟨[("sub", "carol")], 10⟩ "carol" u2).2.1 rfl
  have h2 := (resolver_contract
    (create_access_token [("sub", "carol")] (some 10) 0) ⟨[u2], [], 4, 1⟩ 0
    ⟨[("sub", "carol")], 10⟩ "carol" u2).2.2.2.2.1
    (by decide) (by decide) (by decide)
  have h3 := (resolver_contract
    (create_access_token [("sub", "carol")] (some 10) 0) ⟨[u2], [], 4, 1⟩ 0
    ⟨[("sub", "carol")], 10⟩ "carol" u2).2.2.2.2.2
    (by decide) (by decide) (by decide) (by decide)
  exact ⟨h1, h3, h2.2.2,
    (resolver_contract (.malformed "xx") ⟨[u2], [], 4, 1⟩ 0
      ⟨[("sub", "carol")], 10⟩ "carol" u2).1, by decide⟩

/-- C5.  Updating a calculation applies only the supplied fields
(unsupplied fields keep their stored value, supplied ones take the request
value), then unconditionally recomputes the result from the resulting
(a, b, type) triple and commits; a request supplying no fields returns the
stored record and store unchanged.  Concretely: after
create (a := 10) (b := 5) (type := "add"), a PATCH supplying only b := 8
yields result 18 with a still 10 and the type still "add". -/
theorem update_applies_provided_fields (cid : Nat) (d : CalculationUpdate)
    (u : User) (st : DB) (c : Calculation) (r : ℚ)
    (hfind : findCalc cid u.id st = some c) :
    edit_calculation cid ⟨none, none, none⟩ u st = (.ok c, st)
    ∧ (d.a = none → (applyUpdate c d).a = c.a)
    ∧ (∀ x, d.a = some x → (applyUpdate c d).a = x)
    ∧ (d.b = none → (applyUpdate c d).b = c.b)
    ∧ (∀ x, d.b = some x → (applyUpdate c d).b = x)
    ∧ (d.type = none → (applyUpdate c d).type = c.type)
    ∧ (∀ s, d.type = some s → (applyUpdate c d).type = s)
    ∧ (updatedFlag d = true →
        calculate (applyUpdate c d).a (applyUpdate c d).b
          (applyUpdate c d).type = .ok r →
        edit_calculation cid d u st =
          (.ok (withResult (applyUpdate c d) r),
           { st with calculations :=
               (replaceCalc (withResult (applyUpdate c d) r)
                 st.calculations) }))
    ∧ (add_calculation ⟨10, 5, "add"⟩ u0 db0 1 = (.ok calcAdd, db1)
       ∧ edit_calculation_patch 1 ⟨none, some 8, none⟩ u0 db1 =
           (.ok calcPatched, db2)
       ∧ calcPatched.result = 18 ∧ calcPatched.a = 10
       ∧ calcPatched.type = "add") := by
  obtain ⟨da, dbv, dt⟩ := d
  refine ⟨?_, ?_, ?_, ?_, ?_, ?_, ?_, ?_, ?_⟩
  · simp [edit_calculation, hfind, updatedFlag]
  · intro h
    subst h
    cases dbv <;> cases dt <;> simp [applyUpdate]
  · intro x h
    subst h
    cases dbv <;> cases dt <;> simp [applyUpdate]
  · intro h
    subst h
    cases da <;> cases dt <;> simp [applyUpdate]
  · intro x h
    subst h
    cases da <;> cases dt <;> simp [applyUpdate]
  · intro h
    subst h
    cases da <;> cases dbv <;> simp [applyUpdate]
  · intro s h
    subst h
    cases da <;> cases dbv <;> simp [applyUpdate]
  · intro hflag hcalc
    simp only [edit_calculation, hfind, hflag, if_true, hcalc]
  · exact ⟨scenario_create, scenario_patch, rfl, rfl, rfl⟩

/-- Witness for C5: in the concrete store `db1` the PATCH supplying only
b := 8 on record 1 recomputes 10 + 8 = 18, keeping a = 10 and type
"add"; the no-field update on the same record is a no-op. -/
theorem update_applies_provided_fields_witness :
    edit_calculation 1 ⟨none, none, none⟩ u0 db1 = (.ok calcAdd, db1)
    ∧ edit_calculation 1 ⟨none, some 8, none⟩ u0 db1 =
        (.ok (withResult (applyUpdate calcAdd ⟨none, some 8, none⟩) 18),
         { db1 with calculations :=
             (replaceCalc
               (withResult (applyUpdate calcAdd ⟨none, some 8, none⟩) 18)
               db1.calculations) }) := by
  have h := update_applies_provided_fields 1 ⟨none, some 8, none⟩ u0 db1
    calcAdd 18 (by decide)
  have hc : calculate (applyUpdate calcAdd ⟨none, some 8, none⟩).a
      (applyUpdate calcAdd ⟨none, some 8, none⟩).b
      (applyUpdate calcAdd ⟨none, some 8, none⟩).type = .ok 18 := by
    have hup : applyUpdate calcAdd ⟨none, some 8, none⟩ =
        ⟨1, 1, 10, 8, "add", 15, 1⟩ := rfl
    rw [hup]
    exact calculate_ten_eight
  exact ⟨h.1, h.2.2.2.2.2.2.2.1 (by decide) hc⟩

/-- C6.  Rollback on failed mutations: when the recomputation of an update
fails (division by zero or invalid operation), the request fails with a
400 and the returned store is exactly the input store — the applied
operand/type changes are rolled back, so no partial write survives; the
same holds for a create whose computation fails. -/
theorem failed_mutation_rolls_back (cid : Nat) (d : CalculationUpdate)
    (u : User) (st : DB) (c : Calculation) (e e2 : CalcError)
    (data : CalculationCreate) (now : Nat) :
    (findCalc cid u.id st = some c → updatedFlag d = true →
      calculate (applyUpdate c d).a (applyUpdate c d).b
        (applyUpdate c d).type = .error e →
      edit_calculation cid d u st = (.error (calcErrorToH e), st)
      ∧ (calcErrorToH e).status = 400)
    ∧ (calculate data.a data.b data.type = .error e2 →
      add_calculation data u st now = (.error (calcErrorToH e2), st)
      ∧ (calcErrorToH e2).status = 400) := by
  constructor
  · intro hfind hflag hcalc
    refine ⟨by simp only [edit_calculation, hfind, hflag, if_true, hcalc], ?_⟩
    cases e <;> rfl
  · intro hcalc
    refine ⟨by simp only [add_calculation, hcalc], ?_⟩
    cases e2 <;> rfl

/-- Witness for C6: updating record 1 of `db1` to b := 0, type "divide"
fails with the division-by-zero 400 and leaves the store exactly `db1`;
creating (10, 0, "divide") fails the same way with the store unchanged. -/
theorem failed_mutation_rolls_back_witness :
    edit_calculation 1 ⟨none, some 0, some "divide"⟩ u0 db1 =
      (.error (calcErrorToH .divisionByZero), db1)
    ∧ add_calculation ⟨10, 0, "divide"⟩ u0 db1 7 =
      (.error (calcErrorToH .divisionByZero), db1) := by
  have h := failed_mutation_rolls_back 1 ⟨none, some 0, some "divide"⟩ u0 db1
    calcAdd .divisionByZero .divisionByZero ⟨10, 0, "divide"⟩ 7
  exact ⟨(h.1 (by decide) (by decide) (by decide)).1, (h.2 (by decide)).1⟩

/-- C7.  Registration fails with a 400 conflict iff some stored user
already has exactly the requested username or exactly the requested email;
otherwise it persists the user with the hashed password (which is never
the plaintext) and returns the user projection plus a token whose subject
claim is the new username. -/
theorem register_conflict_iff (d : UserCreate) (st : DB) (now : Nat) :
    ((∃ u ∈ st.users, u.username = d.username ∨ u.email = d.email) ↔
      ∃ detail, (register_user d st now).1 = .error ⟨400, detail⟩)
    ∧ ((∀ u ∈ st.users, u.username ≠ d.username ∧ u.email ≠ d.email) →
      register_user d st now =
        (.ok ⟨"Registration successful",
              ⟨st.next_user_id, d.username, d.email, true⟩,
              create_access_token [("sub", d.username)]
                (some ACCESS_TOKEN_EXPIRE_MINUTES) now, "bearer"⟩,
         { st with
             users := (st.users ++
               [⟨st.next_user_id, d.username, d.email,
                 hash_password d.password, true⟩]),
             next_user_id := st.next_user_id + 1 }))
    ∧ hash_password d.password ≠ d.password := by
  refine ⟨⟨?_, ?_⟩, ?_, ?_⟩
  · rintro ⟨u, hu, hcase⟩
    unfold register_user
    by_cases hP : (st.users.find? (fun x => x.username == d.username)).isSome = true
    · rw [if_pos hP]
      exact ⟨_, rfl⟩
    · rw [if_neg hP]
      rcases hcase with h | h
      · exact absurd (List.find?_isSome.mpr ⟨u, hu, by simp [h]⟩) hP
      · have hQ : (st.users.find? (fun x => x.email == d.email)).isSome = true :=
          List.find?_isSome.mpr ⟨u, hu, by simp [h]⟩
        rw [if_pos hQ]
        exact ⟨_, rfl⟩
  · rintro ⟨detail, hhe⟩
    by_contra hno
    push_neg at hno
    have hP : st.users.find? (fun x => x.username == d.username) = none := by
      rw [List.find?_eq_none]
      intro x hx
      simp [(hno x hx).1]
    have hQ : st.users.find? (fun x => x.email == d.email) = none := by
      rw [List.find?_eq_none]
      intro x hx
      simp [(hno x hx).2]
    simp [register_user, hP, hQ] at hhe
  · intro hno
    have hP : st.users.find? (fun x => x.username == d.username) = none := by
      rw [List.find?_eq_none]
      intro x hx
      simp [(hno x hx).1]
    have hQ : st.users.find? (fun x => x.email == d.email) = none := by
      rw [List.find?_eq_none]
      intro x hx
      simp [(hno x hx).2]
    simp [register_user, hP, hQ, userResponse]
  · intro h
    have hlen := congrArg String.length h
    rw [show hash_password d.password = "$2b$12$" ++ d.password from rfl,
        String.length_append] at hlen
    have h7 : ("$2b$12$" : String).length = 7 := rfl
    rw [h7] at hlen
    omega

/-- Witness for C7, the spec scenario: registering alice into the empty
store succeeds and persists the hashed password; registering the same
username again fails with a 400 conflict. -/
theorem register_conflict_iff_witness :
    register_user ⟨"alice", "alice@x.com", "password123"⟩ ⟨[], [], 1, 1⟩ 0 =
      (.ok ⟨"Registration successful", ⟨1, "alice", "alice@x.com", true⟩,
            create_access_token [("sub", "alice")]
              (some ACCESS_TOKEN_EXPIRE_MINUTES) 0, "bearer"⟩,
       ⟨[⟨1, "alice", "alice@x.com", hash_password "password123", true⟩], [], 2, 1⟩)
    ∧ (∃ detail,
        (register_user ⟨"alice", "other@x.com", "password123"⟩ db0 0).1 =
          .error ⟨400, detail⟩)
    ∧ hash_password "password123" ≠ "password123" := by
  have h1 := register_conflict_iff ⟨"alice", "alice@x.com", "password123"⟩
    ⟨[], [], 1, 1⟩ 0
  have h2 := register_conflict_iff ⟨"alice", "other@x.com", "password123"⟩ db0 0
  refine ⟨?_, h2.1.mp ⟨u0, by decide, Or.inl rfl⟩, h1.2.2⟩
  have := h1.2.1 (by simp)
  simpa using this

/-- C8.  Login resolves the user by exact username OR email equality on
the login identifier; it fails 401 when no user matches or when the
password does not verify (the password is checked before the active flag,
so a bad password on an inactive account still yields 401); it fails 403
when the matched user verifies but is inactive; on success it returns the
user projection with a fresh token for that username. -/
theorem login_contract (d : UserLogin) (st : DB) (now : Nat) (u : User) :
    (st.users.find?
        (fun x => x.username == d.username || x.email == d.username) = none →
      login_user d st now = .error invalidCredentials)
    ∧ (st.users.find?
        (fun x => x.username == d.username || x.email == d.username) = some u →
       verify_password d.password u.password_hash = false →
       login_user d st now = .error invalidCredentials)
    ∧ (st.users.find?
        (fun x => x.username == d.username || x.email == d.username) = some u →
       verify_password d.password u.password_hash = true →
       u.is_active = false →
       login_user d st now = .error ⟨403, "User account is inactive"⟩)
    ∧ (st.users.find?
        (fun x => x.username == d.username || x.email == d.username) = some u →
       verify_password d.password u.password_hash = true →
       u.is_active = true →
       login_user d st now =
         .ok ⟨"Login successful", userResponse u,
              create_access_token [("sub", u.username)]
                (some ACCESS_TOKEN_EXPIRE_MINUTES) now, "bearer"⟩) := by
  refine ⟨?_, ?_, ?_, ?_⟩
  · intro h
    simp [login_user, h]
  · intro h hv
    simp [login_user, h, hv]
  · intro h hv ha
    simp [login_user, h, hv, ha]
  · intro h hv ha
    simp [login_user, h, hv, ha]

/-- Witness for C8 over a store holding active alice and inactive carol:
an unknown identifier gets 401; carol with a wrong password gets 401 (not
403 — password checked first); carol with the right password gets 403;
alice logging in by her email succeeds with a token. -/
theorem login_contract_witness :
    login_user ⟨"zoe", "whatever12"⟩ ⟨[u0, u2], [], 4, 1⟩ 0 =
      .error invalidCredentials
    ∧ login_user ⟨"carol", "wrongpass1"⟩ ⟨[u0, u2], [], 4, 1⟩ 0 =
      .error invalidCredentials
    ∧ login_user ⟨"carol", "carolpw99"⟩ ⟨[u0, u2], [], 4, 1⟩ 0 =
      .error ⟨403, "User account is inactive"⟩
    ∧ login_user ⟨"alice@x.com", "password123"⟩ ⟨[u0, u2], [], 4, 1⟩ 0 =
      .ok ⟨"Login successful", userResponse u0,
           create_access_token [("sub", u0.username)]
             (some ACCESS_TOKEN_EXPIRE_MINUTES) 0, "bearer"⟩ :=
  ⟨(login_contract ⟨"zoe", "whatever12"⟩ ⟨[u0, u2], [], 4, 1⟩ 0 u0).1
     (by decide),
   (login_contract ⟨"carol", "wrongpass1"⟩ ⟨[u0, u2], [], 4, 1⟩ 0 u2).2.1
     (by decide) (by decide),
   (login_contract ⟨"carol", "carolpw99"⟩ ⟨[u0, u2], [], 4, 1⟩ 0 u2).2.2.1
     (by decide) (by decide) (by decide),
   (login_contract ⟨"alice@x.com", "password123"⟩ ⟨[u0, u2], [], 4, 1⟩ 0 u0).2.2.2
     (by decide) (by decide) (by decide)⟩

/-- C9.  The user list, get-by-id, update-by-id and delete-by-id handlers
take no identity at all: for any store, any caller without a token reads
the whole user table, fetches any user by id, deletes any user, and
updates any user — a no-field update succeeds and a supplied username is
subject only to the uniqueness re-check excluding self (400 on conflict).
In contrast every calculation endpoint sits behind the identity gate: with
no bearer token each one fails with the scheme's rejection and mutates
nothing. -/
theorem user_endpoints_open (st : DB) (uid : Nat) (u w : User)
    (uname : String) (data : CalculationCreate) (d : CalculationUpdate)
    (cid skip limit now : Nat) :
    (st.users.find? (fun x => x.id == uid) = some u →
      get_user uid st = .ok u
      ∧ get_users 0 st.users.length st = st.users
      ∧ delete_user uid st =
          (.ok ("User " ++ u.username ++ " deleted successfully"),
           { st with users := (st.users.filter (fun x => !(x.id == uid))) })
      ∧ update_user uid ⟨none, none, none⟩ st =
          (.ok u,
           { st with users :=
               (st.users.map (fun x => if x.id == uid then u else x)) }))
    ∧ (st.users.find? (fun x => x.id == uid) = some u →
       uname.isEmpty = false →
       st.users.find? (fun x => x.username == uname && !(x.id == uid)) = some w →
       update_user uid ⟨some uname, none, none⟩ st =
         (.error ⟨400, "Username already taken"⟩, st))
    ∧ calculations_create_endpoint none data st now = (.error notAuthenticated, st)
    ∧ calculations_browse_endpoint none skip limit st now = .error notAuthenticated
    ∧ calculations_read_endpoint none cid st now = .error notAuthenticated
    ∧ calculations_put_endpoint none cid d st now = (.error notAuthenticated, st)
    ∧ calculations_patch_endpoint none cid d st now = (.error notAuthenticated, st)
    ∧ calculations_delete_endpoint none cid st now = (.error notAuthenticated, st) := by
  refine ⟨?_, ?_, rfl, rfl, rfl, rfl, rfl, rfl⟩
  · intro h
    refine ⟨by simp [get_user, h], ?_, by simp [delete_user, h], ?_⟩
    · simp [get_users, List.take_length]
    · simp [update_user, h, applyUsername, applyEmail, applyPassword]
  · intro h hne hw
    simp [update_user, h, applyUsername, hne, hw]

/-- Witness for C9 over the store holding alice (id 1) and carol (id 3):
with no token, get/list/delete/update of user 1 all work, updating user 1
to the taken username "carol" is the only rejection, and every
calculation endpoint rejects the token-less request. -/
theorem user_endpoints_open_witness :
    get_user 1 ⟨[u0, u2], [], 4, 1⟩ = .ok u0
    ∧ delete_user 1 ⟨[u0, u2], [], 4, 1⟩ =
        (.ok ("User " ++ u0.username ++ " deleted successfully"),
         ⟨[u2], [], 4, 1⟩)
    ∧ update_user 1 ⟨some "carol", none, none⟩ ⟨[u0, u2], [], 4, 1⟩ =
        (.error ⟨400, "Username already taken"⟩, ⟨[u0, u2], [], 4, 1⟩)
    ∧ calculations_browse_endpoint none 0 100 ⟨[u0, u2], [], 4, 1⟩ 0 =
        .error notAuthenticated := by
  have h := user_endpoints_open ⟨[u0, u2], [], 4, 1⟩ 1 u0 u2 "carol"
    ⟨10, 5, "add"⟩ ⟨none, none, none⟩ 7 0 100 0
  have h1 := h.1 (by decide)
  refine ⟨h1.1, ?_, h.2.1 (by decide) (by decide) (by decide), h.2.2.2.1⟩
  have h2 := h1.2.2.1
  simpa using h2

/-- C10.  The PATCH handler delegates unchanged to the PUT handler, both as
bare handlers and behind the identity gate: for every input they return the
same response and leave the store in the same state. -/
theorem patch_equals_put (cred : Option JWTToken) (cid : Nat)
    (d : CalculationUpdate) (u : User) (st : DB) (now : Nat) :
    edit_calculation_patch cid d u st = edit_calculation cid d u st
    ∧ calculations_patch_endpoint cred cid d st now =
        calculations_put_endpoint cred cid d st now :=
  ⟨rfl, rfl⟩

end App
